import Mathlib

/-!
Verification of the gradient-descent learning core of libspn
(`src/libspn/learning/gd.py`, class `GDLearning`).

Tensors are modelled as flat lists of rationals; a tensor's shape is its
length.  The TensorFlow operations used by `gd.py` are modelled by their
documented semantics: `tf.assign_add` is elementwise addition into a
variable, `update_value *= lr` is elementwise scalar multiplication, and
`tf.zeros_like t` is the zero tensor of `t`'s shape.  The deferred TF-graph
building is modelled as explicit state passing on a `GDLearning` state.
Dictionary lookups that may raise `KeyError` return `Except`.
-/

abbrev Tensor := List ℚ

/-- `tf.zeros_like`: the zero tensor of the same shape. -/
def zeros_like (t : Tensor) : Tensor := List.replicate t.length 0

/-- `tf.assign_add` / elementwise tensor addition. -/
def tensorAdd (a b : Tensor) : Tensor := List.zipWith (fun x y => x + y) a b

/-- Elementwise tensor subtraction (the `-=` on line 164 of gd.py). -/
def tensorSub (a b : Tensor) : Tensor := List.zipWith (fun x y => x - y) a b

/-- Elementwise multiplication by a scalar (the `*= self._learning_rate`). -/
def tensorScale (r : ℚ) (t : Tensor) : Tensor := t.map (fun x => x * r)

/-- `libspn.learning.type.LearningType` (values used by gd.py). -/
inductive LearningType where
  | GENERATIVE
  | DISCRIMINATIVE
deriving DecidableEq

/-- `libspn.learning.type.LearningInferenceType` (values used by gd.py). -/
inductive LearningInferenceType where
  | SOFT
  | HARD
deriving DecidableEq

/-- A node of the SPN graph, restricted to the capability contract that
`gd.py` consumes (spec section 6).  The layer-level math
(`_compute_hard_gd_update`, `_compute_gradient`, `update`, `update_log`,
`assign_add`) lives in the excluded layer implementations and is therefore
kept abstract as function-valued fields.  `weight_var` is the initial value
of the node's `variable` tensor (`variable` is a reserved word in Lean);
`update`/`update_log` map (current parameter, delta) to the new parameter,
and `assign_add` maps (current (loc, scale), loc delta, scale delta) to the
new (loc, scale). -/
structure Node where
  id : Nat
  name : String
  children : List Nat
  is_param : Bool
  weight_var : Tensor
  log : Bool
  compute_hard_gd_update : Tensor → Option Tensor → Tensor
  update : Tensor → Tensor → Tensor
  update_log : Tensor → Tensor → Tensor
  isGaussianLeaf : Bool
  learn_distribution_parameters : Bool
  loc_variable : Tensor
  scale_variable : Tensor
  compute_gradient : Tensor → Tensor × Tensor
  assign_add : Tensor × Tensor → Tensor → Tensor → Tensor × Tensor

/-- The SPN DAG: a list of nodes; edges are the `children` id lists. -/
structure Graph where
  nodes : List Node

/-- Child ids of the node with the given id (empty when absent). -/
def Graph.childIds (g : Graph) (i : Nat) : List Nat :=
  match g.nodes.find? (fun n => n.id == i) with
  | some n => n.children
  | none => []

/-- One breadth step of reachability: a set of ids together with all their
children, deduplicated. -/
def reachStep (g : Graph) (s : List Nat) : List Nat :=
  (s ++ s.flatMap (fun i => g.childIds i)).dedup

/-- Ids reachable from `root`, obtained by iterating `reachStep` as many
times as there are nodes (enough for any path in the graph). -/
def reachIds (g : Graph) (root : Nat) : List Nat :=
  (fun s => reachStep g s)^[g.nodes.length] [root]

/-- Modelled from the spec: `traverse_graph` (from
`libspn/graph/algorithms.py`, which is not under `src/`) visits every node
reachable from the root via child edges exactly once, also on DAGs with
shared substructure.  We model its visit sequence as the graph's node list
restricted to the reachable ids, so each node occurs at most once. -/
def traverse_graph (g : Graph) (root : Nat) : List Node :=
  g.nodes.filter (fun n => (reachIds g root).contains n.id)

/-- Modelled from the spec: the signal providers `MPEPath` and `Gradient`
(from `libspn/inference/`, which is not under `src/`).  Each provider holds
a positive signal table (`counts`, which plays the role of `gradients` for
the `Gradient` provider) and a label-conditioned table (`actual_counts`,
resp. `actual_gradients`), both initially empty and each populated by the
corresponding pass.  Since the out-of-scope inference math is fixed for the
lifetime of a session, the value a pass would compute is carried as the
fields `pos_pass_result` / `actual_pass_result`; the pass call counters
`pos_calls` / `act_calls` make the at-most-once contract observable. -/
structure SignalProvider where
  log : Bool
  counts : List (Nat × Tensor)
  actual_counts : List (Nat × Tensor)
  pos_pass_result : List (Nat × Tensor)
  actual_pass_result : List (Nat × Tensor)
  pos_calls : Nat
  act_calls : Nat

/-- Modelled from the spec: `MPEPath.get_mpe_path` runs the positive pass,
populating the counts table. -/
def SignalProvider.get_mpe_path (p : SignalProvider) : SignalProvider :=
  { p with counts := p.pos_pass_result, pos_calls := p.pos_calls + 1 }

/-- Modelled from the spec: `MPEPath.get_mpe_path_actual` runs the
label-conditioned pass, populating the actual-counts table. -/
def SignalProvider.get_mpe_path_actual (p : SignalProvider) : SignalProvider :=
  { p with actual_counts := p.actual_pass_result, act_calls := p.act_calls + 1 }

/-- Modelled from the spec: `Gradient.get_gradients` runs the positive
pass, populating the gradients table. -/
def SignalProvider.get_gradients (p : SignalProvider) : SignalProvider :=
  { p with counts := p.pos_pass_result, pos_calls := p.pos_calls + 1 }

/-- Modelled from the spec: `Gradient.get_actual_gradients` runs the
label-conditioned pass, populating the actual-gradients table. -/
def SignalProvider.get_actual_gradients (p : SignalProvider) : SignalProvider :=
  { p with actual_counts := p.actual_pass_result, act_calls := p.act_calls + 1 }

/-- The namedtuple `GDLearning.ParamNode` (gd.py line 32): one registry
record per parametric node.  `accum` is the current contents of the
accumulator variable; `weight` is the current live value of the node's
parameter variable (`node.variable`), made explicit state here. -/
structure ParamNode where
  node : Node
  name_scope : String
  accum : Tensor
  weight : Tensor

/-- The namedtuple `GDLearning.GaussianLeafNode` (gd.py line 33): registry
record for a Gaussian leaf, holding the two accumulators `mean_grad` /
`var_grad` and the live values of the leaf's `loc_variable` /
`scale_variable`. -/
structure GaussianLeafNode where
  node : Node
  name_scope : String
  mean_grad : Tensor
  var_grad : Tensor
  loc : Tensor
  scale : Tensor

/-- The state of a `GDLearning` instance (gd.py lines 35-72): the stored
configuration, the (at most one) signal provider per inference type, and
the accumulator registry. -/
structure GDLearning where
  root : Nat
  graph : Graph
  learning_rate : ℚ
  log : Bool
  learning_type : LearningType
  learning_inference_type : LearningInferenceType
  mpe_path : Option SignalProvider
  gradient : Option SignalProvider
  param_nodes : List ParamNode
  gaussian_leaf_nodes : List GaussianLeafNode

/-- Python dict lookup in a signal table, keyed by node id. -/
def lookupT (table : List (Nat × Tensor)) (i : Nat) : Option Tensor :=
  match table.find? (fun e => e.1 == i) with
  | some e => some e.2
  | none => none

/-- Process a list left to right with a fallible step, stopping at the
first error (the semantics of the accumulation loops in gd.py, where a
`KeyError` aborts the whole call). -/
def mapE {α β : Type} (f : α → Except String β) : List α → Except String (List β)
  | [] => .ok []
  | x :: xs =>
    match f x with
    | .error e => .error e
    | .ok y =>
      match mapE f xs with
      | .error e => .error e
      | .ok ys => .ok (y :: ys)

/-- The positive signal table the accumulation loop reads
(gd.py lines 153-158: `counts` when HARD, `gradients` otherwise). -/
def GDLearning.positive_grad_table (g : GDLearning) : List (Nat × Tensor) :=
  match g.learning_inference_type with
  | .HARD =>
    match g.mpe_path with
    | some mp => mp.counts
    | none => []
  | .SOFT =>
    match g.gradient with
    | some gr => gr.counts
    | none => []

/-- The actual (label-conditioned) signal table the accumulation loop reads
(gd.py lines 153-158: `actual_counts` when HARD, `actual_gradients`
otherwise). -/
def GDLearning.negative_grad_table (g : GDLearning) : List (Nat × Tensor) :=
  match g.learning_inference_type with
  | .HARD =>
    match g.mpe_path with
    | some mp => mp.actual_counts
    | none => []
  | .SOFT =>
    match g.gradient with
    | some gr => gr.actual_counts
    | none => []

/-- Total number of positive-pass invocations across the instance's
providers (at most one provider is present). -/
def GDLearning.pos_pass_calls (g : GDLearning) : Nat :=
  (match g.mpe_path with
   | some mp => mp.pos_calls
   | none => 0) +
  (match g.gradient with
   | some gr => gr.pos_calls
   | none => 0)

/-- Total number of actual-pass invocations (`get_mpe_path_actual` /
`get_actual_gradients`) across the instance's providers. -/
def GDLearning.actual_pass_calls (g : GDLearning) : Nat :=
  (match g.mpe_path with
   | some mp => mp.act_calls
   | none => 0) +
  (match g.gradient with
   | some gr => gr.act_calls
   | none => 0)

/-- Lines 108-115 of gd.py for the MPE-path provider: generate the path if
not yet generated, and the actual path if discriminative and not yet
generated. -/
def SignalProvider.ensured (lt : LearningType) (p : SignalProvider) : SignalProvider :=
  let p1 := if p.counts.isEmpty then p.get_mpe_path else p
  if lt = LearningType.DISCRIMINATIVE ∧ p1.actual_counts.isEmpty then
    p1.get_mpe_path_actual
  else p1

/-- Lines 116-123 of gd.py for the gradient provider: generate the
gradients if not yet generated, and the actual gradients if discriminative
and not yet generated. -/
def SignalProvider.ensured_grad (lt : LearningType) (p : SignalProvider) : SignalProvider :=
  let p1 := if p.counts.isEmpty then p.get_gradients else p
  if lt = LearningType.DISCRIMINATIVE ∧ p1.actual_counts.isEmpty then
    p1.get_actual_gradients
  else p1

/-- Lines 107-123 of gd.py: lazily populate the signal tables of the
provider selected by the learning inference type. -/
def GDLearning.ensure_signals (g : GDLearning) : Except String GDLearning :=
  match g.learning_inference_type with
  | .HARD =>
    match g.mpe_path with
    | none => .error "internal error: mpe_path is None"
    | some mp => .ok { g with mpe_path := some (mp.ensured g.learning_type) }
  | .SOFT =>
    match g.gradient with
    | none => .error "internal error: gradient is None"
    | some gr => .ok { g with gradient := some (gr.ensured_grad g.learning_type) }

/-- Lines 131-133 / 141-144 of gd.py: the actual signal handed to
`_compute_hard_gd_update`, looked up only in discriminative mode (a missing
entry is a `KeyError`). -/
def fetchActual (lt : LearningType) (negT : List (Nat × Tensor)) (i : Nat) :
    Except String (Option Tensor) :=
  match lt with
  | .DISCRIMINATIVE =>
    match lookupT negT i with
    | none => .error "KeyError: actual signal missing for node"
    | some t => .ok (some t)
  | .GENERATIVE => .ok none

/-- Lines 128-151 of gd.py, body of the loop over `self._param_nodes`:
fetch the signals, compute `_compute_hard_gd_update`, apply the learning
rate, and `tf.assign_add` the result into the record's accumulator. -/
def accumParamNode (lt : LearningType) (lr : ℚ) (posT negT : List (Nat × Tensor))
    (pn : ParamNode) : Except String ParamNode :=
  match lookupT posT pn.node.id with
  | none => .error "KeyError: positive signal missing for node"
  | some counts =>
    match fetchActual lt negT pn.node.id with
    | .error e => .error e
    | .ok actual_counts =>
      .ok { pn with accum := (tensorAdd pn.accum
          (tensorScale lr (pn.node.compute_hard_gd_update counts actual_counts))) }

/-- Lines 162-164 of gd.py: the incoming gradient of a Gaussian leaf, with
the actual signal subtracted beforehand in discriminative mode. -/
def correctedSignal (lt : LearningType) (negT : List (Nat × Tensor)) (i : Nat)
    (incoming : Tensor) : Except String Tensor :=
  match lt with
  | .DISCRIMINATIVE =>
    match lookupT negT i with
    | none => .error "KeyError: actual signal missing for node"
    | some t => .ok (tensorSub incoming t)
  | .GENERATIVE => .ok incoming

/-- Lines 160-167 of gd.py, body of the loop over
`self._gaussian_leaf_nodes`: compute the corrected incoming signal, call
`_compute_gradient`, scale both deltas by the learning rate and
`tf.assign_add` them into the record's two accumulators. -/
def accumLeafNode (lt : LearningType) (lr : ℚ) (posT negT : List (Nat × Tensor))
    (gn : GaussianLeafNode) : Except String GaussianLeafNode :=
  match lookupT posT gn.node.id with
  | none => .error "KeyError: positive signal missing for node"
  | some incoming0 =>
    match correctedSignal lt negT gn.node.id incoming0 with
    | .error e => .error e
    | .ok incoming =>
      let mv := gn.node.compute_gradient incoming
      .ok { gn with
        mean_grad := tensorAdd gn.mean_grad (tensorScale lr mv.1),
        var_grad := tensorAdd gn.var_grad (tensorScale lr mv.2) }

/-- Lines 126-169 of gd.py: the accumulation loops over the parametric
records and the Gaussian leaf records, reading the tables selected by the
learning inference type. -/
def GDLearning.accumulate_ops (g : GDLearning) : Except String GDLearning :=
  match mapE (accumParamNode g.learning_type g.learning_rate
      g.positive_grad_table g.negative_grad_table) g.param_nodes with
  | .error e => .error e
  | .ok pns =>
    match mapE (accumLeafNode g.learning_type g.learning_rate
        g.positive_grad_table g.negative_grad_table) g.gaussian_leaf_nodes with
    | .error e => .error e
    | .ok gns => .ok { g with param_nodes := pns, gaussian_leaf_nodes := gns }

/-- `GDLearning.accumulate_updates` (gd.py lines 107-169): ensure the
signal tables are populated, then run the accumulation loops. -/
def GDLearning.accumulate_updates (g : GDLearning) : Except String GDLearning :=
  match g.ensure_signals with
  | .error e => .error e
  | .ok g1 => g1.accumulate_ops

/-- Body of the loop over `self._param_nodes` in `GDLearning.update_spn`
(gd.py lines 175-188): commit the accumulator into the node's live
parameter via `update_log` when the node stores its parameter in log space
and `update` otherwise.  The HARD and non-HARD branches of the source are
duplicated verbatim, as in the code. -/
def commitParam (lit : LearningInferenceType) (pn : ParamNode) : ParamNode :=
  if lit = LearningInferenceType.HARD then
    if pn.node.log then
      { pn with weight := pn.node.update_log pn.weight pn.accum }
    else
      { pn with weight := pn.node.update pn.weight pn.accum }
  else
    if pn.node.log then
      { pn with weight := pn.node.update_log pn.weight pn.accum }
    else
      { pn with weight := pn.node.update pn.weight pn.accum }

/-- Body of the loop over `self._gaussian_leaf_nodes` in
`GDLearning.update_spn` (gd.py lines 189-191): commit both leaf
accumulators via the leaf's `assign_add`. -/
def commitLeaf (gn : GaussianLeafNode) : GaussianLeafNode :=
  let ls := gn.node.assign_add (gn.loc, gn.scale) gn.mean_grad gn.var_grad
  { gn with loc := ls.1, scale := ls.2 }

/-- `GDLearning.update_spn` (gd.py lines 171-192): commit every weight
accumulator and both accumulators of every leaf record into the live
parameters.  Accumulators are not modified. -/
def GDLearning.update_spn (g : GDLearning) : GDLearning :=
  { g with
    param_nodes := g.param_nodes.map (commitParam g.learning_inference_type),
    gaussian_leaf_nodes := g.gaussian_leaf_nodes.map commitLeaf }

/-- `GDLearning.reset_accumulators` (gd.py lines 99-105): re-run every
accumulator's initializer, i.e. set it back to `tf.zeros_like` of the
node's parameter variable; nothing else changes. -/
def GDLearning.reset_accumulators (g : GDLearning) : GDLearning :=
  { g with
    param_nodes := g.param_nodes.map (fun pn =>
      { pn with accum := zeros_like pn.weight }),
    gaussian_leaf_nodes := g.gaussian_leaf_nodes.map (fun gn =>
      { gn with mean_grad := zeros_like gn.loc, var_grad := zeros_like gn.scale }) }

/-- The `ParamNode` record allocated in `_create_accumulators` (gd.py
lines 196-202): a zero accumulator shaped like the node's parameter
variable, a name scope, and the node's live parameter value. -/
def mkParamRecord (n : Node) : ParamNode :=
  { node := n, name_scope := n.name, accum := zeros_like n.weight_var,
    weight := n.weight_var }

/-- The `GaussianLeafNode` record allocated in `_create_accumulators`
(gd.py lines 204-215): two zero accumulators shaped like the leaf's
location and scale variables, plus the live parameter values. -/
def mkLeafRecord (n : Node) : GaussianLeafNode :=
  { node := n, name_scope := n.name,
    mean_grad := zeros_like n.loc_variable,
    var_grad := zeros_like n.scale_variable,
    loc := n.loc_variable, scale := n.scale_variable }

/-- `GDLearning._create_accumulators` (gd.py lines 194-220), parametric
part: for every traversed node with `is_param`, allocate a zero accumulator
shaped like the node's parameter variable. -/
def create_accumulators_params (g : Graph) (root : Nat) : List ParamNode :=
  (traverse_graph g root).filterMap (fun n =>
    if n.is_param then some (mkParamRecord n) else none)

/-- `GDLearning._create_accumulators` (gd.py lines 194-220), leaf part: for
every traversed Gaussian leaf with `learn_distribution_parameters`,
allocate two zero accumulators shaped like the leaf's location and scale
variables. -/
def create_accumulators_leaves (g : Graph) (root : Nat) : List GaussianLeafNode :=
  (traverse_graph g root).filterMap (fun n =>
    if n.isGaussianLeaf && n.learn_distribution_parameters then
      some (mkLeafRecord n)
    else none)

/-- Lines 48-67 of gd.py: choose the providers and the effective log flag.
When HARD, an internal `MPEPath` is created unless one was supplied, in
which case the supplied provider's `log` flag overrides the argument; the
non-HARD case mirrors this with the `Gradient` provider. -/
def chooseProviders (lit : LearningInferenceType)
    (mpe_path gradient : Option SignalProvider) (log : Bool)
    (internal : SignalProvider) :
    Option SignalProvider × Option SignalProvider × Bool :=
  match lit with
  | .HARD =>
    match mpe_path with
    | none => (some internal, none, log)
    | some p => (some p, none, p.log)
  | .SOFT =>
    match gradient with
    | none => (none, some internal, log)
    | some p => (none, some p, p.log)

/-- `GDLearning.__init__` (gd.py lines 35-72).  The arguments
`pos_pass_result` / `actual_pass_result` stand for the out-of-scope
inference computation an internally created provider would perform (the
role of `value_inference_type`, `add_random` and `use_unweighted` in the
source); an internally created provider starts with empty tables and zero
call counters. -/
def GDLearning.init (root : Nat) (graph : Graph)
    (mpe_path gradient : Option SignalProvider) (learning_rate : ℚ)
    (log : Bool) (learning_type : LearningType)
    (learning_inference_type : LearningInferenceType)
    (pos_pass_result actual_pass_result : List (Nat × Tensor)) :
    Except String GDLearning :=
  if learning_rate ≤ 0 then
    .error "learning_rate must be a positive number"
  else
    let internal : SignalProvider :=
      { log := log, counts := [], actual_counts := [],
        pos_pass_result := pos_pass_result,
        actual_pass_result := actual_pass_result,
        pos_calls := 0, act_calls := 0 }
    let mgl := chooseProviders learning_inference_type mpe_path gradient log internal
    .ok { root := root, graph := graph, learning_rate := learning_rate,
          log := mgl.2.2, learning_type := learning_type,
          learning_inference_type := learning_inference_type,
          mpe_path := mgl.1, gradient := mgl.2.1,
          param_nodes := create_accumulators_params graph root,
          gaussian_leaf_nodes := create_accumulators_leaves graph root }

/-! Concrete instances used by the witness theorems below: a three-node
graph (plain root, one parametric node, one Gaussian leaf), a provider
with populated tables, a fresh provider with empty tables, and the
corresponding `GDLearning` states. -/

/-- A parametric weight node whose abstract update functions are plain
tensor arithmetic. -/
def nodeW : Node :=
  { id := 1, name := "weights", children := [],
    is_param := true,
    weight_var := [1, 2],
    log := false,
    compute_hard_gd_update := fun pos act =>
      match act with
      | some a => tensorSub pos a
      | none => pos,
    update := fun w d => tensorAdd w d,
    update_log := fun w d => tensorAdd w d,
    isGaussianLeaf := false,
    learn_distribution_parameters := false,
    loc_variable := [], scale_variable := [],
    compute_gradient := fun t => (t, t),
    assign_add := fun ls m v => (tensorAdd ls.1 m, tensorAdd ls.2 v) }

/-- A Gaussian leaf node with trainable distribution parameters. -/
def nodeL : Node :=
  { id := 2, name := "leaf", children := [],
    is_param := false,
    weight_var := [],
    log := true,
    compute_hard_gd_update := fun pos _ => pos,
    update := fun w d => tensorAdd w d,
    update_log := fun w d => tensorAdd w d,
    isGaussianLeaf := true,
    learn_distribution_parameters := true,
    loc_variable := [3], scale_variable := [4],
    compute_gradient := fun t => (t, tensorScale 2 t),
    assign_add := fun ls m v => (tensorAdd ls.1 m, tensorAdd ls.2 v) }

/-- A plain root node with the two nodes above as children. -/
def nodeR : Node :=
  { id := 0, name := "root", children := [1, 2],
    is_param := false,
    weight_var := [],
    log := false,
    compute_hard_gd_update := fun pos _ => pos,
    update := fun w d => tensorAdd w d,
    update_log := fun w d => tensorAdd w d,
    isGaussianLeaf := false,
    learn_distribution_parameters := false,
    loc_variable := [], scale_variable := [],
    compute_gradient := fun t => (t, t),
    assign_add := fun ls m v => (tensorAdd ls.1 m, tensorAdd ls.2 v) }

/-- The witness graph. -/
def graphW : Graph := { nodes := [nodeR, nodeW, nodeL] }

/-- A provider with both tables populated. -/
def provW : SignalProvider :=
  { log := true,
    counts := [(1, [2, 3]), (2, [5])],
    actual_counts := [(1, [1, 1]), (2, [2])],
    pos_pass_result := [(1, [2, 3]), (2, [5])],
    actual_pass_result := [(1, [1, 1]), (2, [2])],
    pos_calls := 1, act_calls := 1 }

/-- A fresh provider: empty tables, zero call counters. -/
def provF : SignalProvider :=
  { provW with counts := [], actual_counts := [], pos_calls := 0, act_calls := 0 }

/-- Registry record for the witness weight node. -/
def pnW : ParamNode :=
  { node := nodeW, name_scope := "weights", accum := [10, 20], weight := [1, 2] }

/-- Registry record for the witness leaf node. -/
def gnW : GaussianLeafNode :=
  { node := nodeL, name_scope := "leaf", mean_grad := [7], var_grad := [9],
    loc := [3], scale := [4] }

/-- Witness learning state: discriminative, HARD, populated tables. -/
def gW : GDLearning :=
  { root := 0, graph := graphW, learning_rate := 2, log := true,
    learning_type := LearningType.DISCRIMINATIVE,
    learning_inference_type := LearningInferenceType.HARD,
    mpe_path := some provW, gradient := none,
    param_nodes := [pnW], gaussian_leaf_nodes := [gnW] }

/-- Result of one `accumulate_updates` call on `gW`. -/
def gW1 : GDLearning := gW.accumulate_updates.toOption.getD gW

/-- Witness learning state in generative mode. -/
def gGen : GDLearning := { gW with learning_type := LearningType.GENERATIVE }

/-- Result of one `accumulate_updates` call on `gGen`. -/
def gGen1 : GDLearning := gGen.accumulate_updates.toOption.getD gGen

/-- Witness learning state with a fresh provider (empty tables). -/
def gF : GDLearning := { gW with mpe_path := some provF }

/-- Result of the first `accumulate_updates` call on `gF`. -/
def gF1 : GDLearning := gF.accumulate_updates.toOption.getD gF

/-- Result of the second `accumulate_updates` call. -/
def gF2 : GDLearning := gF1.accumulate_updates.toOption.getD gF1

/-- Witness construction over the witness graph. -/
def stW : GDLearning :=
  (GDLearning.init 0 graphW none none 1 true LearningType.DISCRIMINATIVE
    LearningInferenceType.HARD [] []).toOption.getD gW

/-! Helper lemmas. -/

/-- Successful `mapE` relates input and output elementwise. -/
theorem mapE_get? {α β : Type} {f : α → Except String β} :
    ∀ {xs : List α} {ys : List β}, mapE f xs = .ok ys →
      ∀ (i : Nat) {x : α}, xs.get? i = some x →
        ∃ y, f x = .ok y ∧ ys.get? i = some y := by
  intro xs
  induction xs with
  | nil =>
    intro ys _ i x hx
    simp at hx
  | cons a as ih =>
    intro ys h i x hx
    rw [mapE] at h
    cases hfa : f a with
    | error e => rw [hfa] at h; exact absurd h (by simp)
    | ok y =>
      rw [hfa] at h
      cases hrest : mapE f as with
      | error e => rw [hrest] at h; exact absurd h (by simp)
      | ok ys' =>
        rw [hrest] at h
        simp only [Except.ok.injEq] at h
        subst h
        cases i with
        | zero =>
          simp only [List.get?] at hx
          cases hx
          exact ⟨y, hfa, rfl⟩
        | succ i =>
          simp only [List.get?] at hx ⊢
          exact ih hrest i hx

/-- A projection preserved by the step is preserved through `mapE`. -/
theorem mapE_map_eq {α β γ : Type} {f : α → Except String β} (p : β → γ) (q : α → γ)
    (hpq : ∀ x y, f x = .ok y → p y = q x) :
    ∀ {xs : List α} {ys : List β}, mapE f xs = .ok ys → ys.map p = xs.map q := by
  intro xs
  induction xs with
  | nil =>
    intro ys h
    rw [mapE] at h
    simp only [Except.ok.injEq] at h
    subst h
    rfl
  | cons a as ih =>
    intro ys h
    rw [mapE] at h
    cases hfa : f a with
    | error e => rw [hfa] at h; exact absurd h (by simp)
    | ok y =>
      rw [hfa] at h
      cases hrest : mapE f as with
      | error e => rw [hrest] at h; exact absurd h (by simp)
      | ok ys' =>
        rw [hrest] at h
        simp only [Except.ok.injEq] at h
        subst h
        simp only [List.map_cons]
        rw [hpq a y hfa, ih hrest]

/-- `accumParamNode` touches only the accumulator field. -/
theorem accumParamNode_frame {lt lr posT negT} {pn pn' : ParamNode}
    (h : accumParamNode lt lr posT negT pn = .ok pn') :
    pn'.weight = pn.weight ∧ pn'.node = pn.node ∧ pn'.name_scope = pn.name_scope := by
  rw [accumParamNode] at h
  cases hl : lookupT posT pn.node.id with
  | none => rw [hl] at h; exact absurd h (by simp)
  | some c =>
    rw [hl] at h
    cases ha : fetchActual lt negT pn.node.id with
    | error e => rw [ha] at h; exact absurd h (by simp)
    | ok act =>
      rw [ha] at h
      simp only [Except.ok.injEq] at h
      subst h
      exact ⟨rfl, rfl, rfl⟩

/-- `accumLeafNode` touches only the two accumulator fields. -/
theorem accumLeafNode_frame {lt lr posT negT} {gn gn' : GaussianLeafNode}
    (h : accumLeafNode lt lr posT negT gn = .ok gn') :
    gn'.loc = gn.loc ∧ gn'.scale = gn.scale ∧ gn'.node = gn.node ∧
      gn'.name_scope = gn.name_scope := by
  rw [accumLeafNode] at h
  split at h
  · exact absurd h (by simp)
  · split at h
    · exact absurd h (by simp)
    · simp only [Except.ok.injEq] at h
      subst h
      exact ⟨rfl, rfl, rfl, rfl⟩

/-- The signal tables depend only on the inference type and the providers. -/
theorem grad_tables_congr {g g' : GDLearning}
    (hm : g'.mpe_path = g.mpe_path) (hg : g'.gradient = g.gradient)
    (hl : g'.learning_inference_type = g.learning_inference_type) :
    g'.positive_grad_table = g.positive_grad_table ∧
      g'.negative_grad_table = g.negative_grad_table := by
  rw [GDLearning.positive_grad_table, GDLearning.positive_grad_table,
    GDLearning.negative_grad_table, GDLearning.negative_grad_table, hm, hg, hl]
  exact ⟨rfl, rfl⟩

/-- The pass call counters depend only on the providers. -/
theorem pass_calls_congr {g g' : GDLearning}
    (hm : g'.mpe_path = g.mpe_path) (hg : g'.gradient = g.gradient) :
    g'.pos_pass_calls = g.pos_pass_calls ∧
      g'.actual_pass_calls = g.actual_pass_calls := by
  rw [GDLearning.pos_pass_calls, GDLearning.pos_pass_calls,
    GDLearning.actual_pass_calls, GDLearning.actual_pass_calls, hm, hg]
  exact ⟨rfl, rfl⟩

/-- Effect of the lazy MPE-path generation on tables and counters. -/
theorem SignalProvider.ensured_spec (lt : LearningType) (p : SignalProvider) :
    (p.ensured lt).pos_calls = p.pos_calls + (if p.counts.isEmpty then 1 else 0) ∧
    (p.ensured lt).act_calls = p.act_calls +
      (if lt = LearningType.DISCRIMINATIVE ∧ p.actual_counts.isEmpty then 1 else 0) ∧
    (p.ensured lt).counts = (if p.counts.isEmpty then p.pos_pass_result else p.counts) ∧
    (p.ensured lt).actual_counts =
      (if lt = LearningType.DISCRIMINATIVE ∧ p.actual_counts.isEmpty
       then p.actual_pass_result else p.actual_counts) := by
  by_cases hc : p.counts = [] <;>
    by_cases hd : lt = LearningType.DISCRIMINATIVE ∧ p.actual_counts = [] <;>
      simp [hc, hd, SignalProvider.ensured, SignalProvider.get_mpe_path,
        SignalProvider.get_mpe_path_actual]

/-- Effect of the lazy gradient generation on tables and counters. -/
theorem SignalProvider.ensured_grad_spec (lt : LearningType) (p : SignalProvider) :
    (p.ensured_grad lt).pos_calls = p.pos_calls + (if p.counts.isEmpty then 1 else 0) ∧
    (p.ensured_grad lt).act_calls = p.act_calls +
      (if lt = LearningType.DISCRIMINATIVE ∧ p.actual_counts.isEmpty then 1 else 0) ∧
    (p.ensured_grad lt).counts = (if p.counts.isEmpty then p.pos_pass_result else p.counts) ∧
    (p.ensured_grad lt).actual_counts =
      (if lt = LearningType.DISCRIMINATIVE ∧ p.actual_counts.isEmpty
       then p.actual_pass_result else p.actual_counts) := by
  by_cases hc : p.counts = [] <;>
    by_cases hd : lt = LearningType.DISCRIMINATIVE ∧ p.actual_counts = [] <;>
      simp [hc, hd, SignalProvider.ensured_grad, SignalProvider.get_gradients,
        SignalProvider.get_actual_gradients]

/-- `ensure_signals` leaves everything but the providers unchanged. -/
theorem ensure_signals_ok {g g1 : GDLearning} (h : g.ensure_signals = .ok g1) :
    g1.param_nodes = g.param_nodes ∧
    g1.gaussian_leaf_nodes = g.gaussian_leaf_nodes ∧
    g1.learning_type = g.learning_type ∧
    g1.learning_rate = g.learning_rate ∧
    g1.learning_inference_type = g.learning_inference_type ∧
    g1.graph = g.graph ∧ g1.root = g.root ∧ g1.log = g.log := by
  rw [GDLearning.ensure_signals] at h
  split at h
  · split at h
    · simp at h
    · simp only [Except.ok.injEq] at h
      subst h
      exact ⟨rfl, rfl, rfl, rfl, rfl, rfl, rfl, rfl⟩
  · split at h
    · simp at h
    · simp only [Except.ok.injEq] at h
      subst h
      exact ⟨rfl, rfl, rfl, rfl, rfl, rfl, rfl, rfl⟩

/-- `ensure_signals` replaces the selected provider by its ensured version
and leaves the other provider slot unchanged. -/
theorem ensure_signals_providers {g g1 : GDLearning} (h : g.ensure_signals = .ok g1) :
    (g.learning_inference_type = LearningInferenceType.HARD →
      ∃ mp, g.mpe_path = some mp ∧ g1.mpe_path = some (mp.ensured g.learning_type) ∧
        g1.gradient = g.gradient) ∧
    (g.learning_inference_type = LearningInferenceType.SOFT →
      ∃ gr, g.gradient = some gr ∧ g1.gradient = some (gr.ensured_grad g.learning_type) ∧
        g1.mpe_path = g.mpe_path) := by
  rw [GDLearning.ensure_signals] at h
  split at h
  · rename_i hlit
    split at h
    · simp at h
    · rename_i o mp hmp
      simp only [Except.ok.injEq] at h
      subst h
      refine ⟨fun _ => ⟨mp, hmp, rfl, rfl⟩, fun hs => ?_⟩
      rw [hlit] at hs
      simp at hs
  · rename_i hlit
    split at h
    · simp at h
    · rename_i o gr hgr
      simp only [Except.ok.injEq] at h
      subst h
      refine ⟨fun hs => ?_, fun _ => ⟨gr, hgr, rfl, rfl⟩⟩
      rw [hlit] at hs
      simp at hs

/-- `accumulate_ops` runs the two accumulation loops against the instance's
signal tables and leaves everything else unchanged. -/
theorem accumulate_ops_ok {g1 g' : GDLearning} (h : g1.accumulate_ops = .ok g') :
    mapE (accumParamNode g1.learning_type g1.learning_rate g1.positive_grad_table
      g1.negative_grad_table) g1.param_nodes = .ok g'.param_nodes ∧
    mapE (accumLeafNode g1.learning_type g1.learning_rate g1.positive_grad_table
      g1.negative_grad_table) g1.gaussian_leaf_nodes = .ok g'.gaussian_leaf_nodes ∧
    g'.mpe_path = g1.mpe_path ∧ g'.gradient = g1.gradient ∧
    g'.learning_type = g1.learning_type ∧ g'.learning_rate = g1.learning_rate ∧
    g'.learning_inference_type = g1.learning_inference_type := by
  rw [GDLearning.accumulate_ops] at h
  split at h
  · exact absurd h (by simp)
  · rename_i pns hpns
    split at h
    · exact absurd h (by simp)
    · rename_i gns hgns
      simp only [Except.ok.injEq] at h
      subst h
      exact ⟨hpns, hgns, rfl, rfl, rfl, rfl, rfl⟩

/-- A successful `accumulate_updates` call decomposes into a successful
`ensure_signals` followed by a successful `accumulate_ops`. -/
theorem accumulate_updates_ok {g g' : GDLearning} (h : g.accumulate_updates = .ok g') :
    ∃ g1, g.ensure_signals = .ok g1 ∧ g1.accumulate_ops = .ok g' := by
  rw [GDLearning.accumulate_updates] at h
  split at h
  · exact absurd h (by simp)
  · rename_i g1 hg1
    exact ⟨g1, hg1, h⟩

/-- Effect of `ensure_signals` on the signal tables and pass counters: a
pass runs only when its table is still empty, and a nonempty table is
preserved verbatim. -/
theorem ensure_signals_effects {g g1 : GDLearning} (h : g.ensure_signals = .ok g1) :
    g1.pos_pass_calls = g.pos_pass_calls +
      (if g.positive_grad_table.isEmpty then 1 else 0) ∧
    g1.actual_pass_calls = g.actual_pass_calls +
      (if g.learning_type = LearningType.DISCRIMINATIVE ∧ g.negative_grad_table.isEmpty
       then 1 else 0) ∧
    (¬ g.positive_grad_table.isEmpty →
      g1.positive_grad_table = g.positive_grad_table) ∧
    (¬ (g.learning_type = LearningType.DISCRIMINATIVE ∧ g.negative_grad_table.isEmpty) →
      g1.negative_grad_table = g.negative_grad_table) := by
  obtain ⟨-, -, hlt, -, hlit, -, -, -⟩ := ensure_signals_ok h
  obtain ⟨hH, hS⟩ := ensure_signals_providers h
  cases hl : g.learning_inference_type with
  | HARD =>
    obtain ⟨mp, hmp, hmp1, hgr1⟩ := hH hl
    obtain ⟨e1, e2, e3, e4⟩ := SignalProvider.ensured_spec g.learning_type mp
    simp only [GDLearning.pos_pass_calls, GDLearning.actual_pass_calls,
      GDLearning.positive_grad_table, GDLearning.negative_grad_table,
      hmp, hmp1, hgr1, hlit, hl, e1, e2, e3, e4]
    by_cases hc : mp.counts = [] <;>
      by_cases hdc : g.learning_type = LearningType.DISCRIMINATIVE ∧ mp.actual_counts = [] <;>
        simp [hc, hdc] <;> omega
  | SOFT =>
    obtain ⟨gr, hgr, hgr1, hmp1⟩ := hS hl
    obtain ⟨e1, e2, e3, e4⟩ := SignalProvider.ensured_grad_spec g.learning_type gr
    simp only [GDLearning.pos_pass_calls, GDLearning.actual_pass_calls,
      GDLearning.positive_grad_table, GDLearning.negative_grad_table,
      hgr, hgr1, hmp1, hlit, hl, e1, e2, e3, e4]
    by_cases hc : gr.counts = [] <;>
      by_cases hdc : g.learning_type = LearningType.DISCRIMINATIVE ∧ gr.actual_counts = [] <;>
        simp [hc, hdc] <;> omega

/-! Claim theorems. -/

/-- Claim C1: for every GDLearning instance and every registered
parametric-node record, one call to accumulate_updates computes the node's
update as compute_hard_gd_update applied to the positive signal and the
actual signal when the learning type is DISCRIMINATIVE (and to the positive
signal and None otherwise), multiplies the result by the learning rate, and
adds it in place into that record's accumulator without overwriting it,
while leaving every live model parameter unchanged. -/
theorem gd_accumulate_updates_param (g g' : GDLearning) (i : Nat) (pn : ParamNode)
    (pos : Tensor)
    (h : g.accumulate_updates = .ok g')
    (hpn : g.param_nodes.get? i = some pn)
    (hpos : lookupT g'.positive_grad_table pn.node.id = some pos) :
    g'.param_nodes.get? i = some { pn with accum := (tensorAdd pn.accum
      (tensorScale g.learning_rate (pn.node.compute_hard_gd_update pos
        (if g.learning_type = LearningType.DISCRIMINATIVE
         then lookupT g'.negative_grad_table pn.node.id else none)))) } ∧
    g'.param_nodes.map ParamNode.weight = g.param_nodes.map ParamNode.weight ∧
    g'.gaussian_leaf_nodes.map (fun x => (x.loc, x.scale)) =
      g.gaussian_leaf_nodes.map (fun x => (x.loc, x.scale)) := by
  obtain ⟨g1, hens, hops⟩ := accumulate_updates_ok h
  obtain ⟨hpn1, hgn1, hlt1, hlr1, hlit1, -, -, -⟩ := ensure_signals_ok hens
  obtain ⟨hmapP, hmapL, hmp', hgr', hlt', hlr', hlit'⟩ := accumulate_ops_ok hops
  obtain ⟨hposT, hnegT⟩ := grad_tables_congr hmp' hgr' hlit'
  rw [hpn1, hlt1, hlr1] at hmapP
  rw [hgn1, hlt1, hlr1] at hmapL
  rw [hposT] at hpos
  rw [hnegT]
  refine ⟨?_, ?_, ?_⟩
  · obtain ⟨pn', hstep, hget⟩ := mapE_get? hmapP i hpn
    rw [accumParamNode] at hstep
    split at hstep
    · simp at hstep
    · rename_i c heq
      rw [heq] at hpos
      simp only [Option.some.injEq] at hpos
      subst hpos
      split at hstep
      · simp at hstep
      · rename_i act hact
        simp only [Except.ok.injEq] at hstep
        subst hstep
        cases hllt : g.learning_type with
        | GENERATIVE =>
          rw [hllt] at hact
          simp only [fetchActual, Except.ok.injEq] at hact
          subst hact
          simpa using hget
        | DISCRIMINATIVE =>
          rw [hllt] at hact
          simp only [fetchActual] at hact
          split at hact
          · simp at hact
          · rename_i t heq2
            simp only [Except.ok.injEq] at hact
            subst hact
            rw [heq2]
            simpa using hget
  · exact mapE_map_eq ParamNode.weight ParamNode.weight
      (fun x y hxy => (accumParamNode_frame hxy).1) hmapP
  · refine mapE_map_eq (fun x => (x.loc, x.scale)) (fun x => (x.loc, x.scale))
      (fun x y hxy => ?_) hmapL
    obtain ⟨hl, hs, -, -⟩ := accumLeafNode_frame hxy
    simp only [hl, hs]

/-- Witness for claim C1, at the concrete discriminative HARD instance
`gW`: the weight accumulator goes from [10, 20] to [10, 20] + 2 * ([2, 3] -
[1, 1]). -/
theorem gd_accumulate_updates_param_w :
    gW.accumulate_updates = .ok gW1 ∧
    gW.param_nodes.get? 0 = some pnW ∧
    lookupT gW1.positive_grad_table pnW.node.id = some [2, 3] ∧
    (gW1.param_nodes.get? 0 = some { pnW with accum := (tensorAdd pnW.accum
      (tensorScale gW.learning_rate (pnW.node.compute_hard_gd_update [2, 3]
        (if gW.learning_type = LearningType.DISCRIMINATIVE
         then lookupT gW1.negative_grad_table pnW.node.id else none)))) } ∧
     gW1.param_nodes.map ParamNode.weight = gW.param_nodes.map ParamNode.weight ∧
     gW1.gaussian_leaf_nodes.map (fun x => (x.loc, x.scale)) =
       gW.gaussian_leaf_nodes.map (fun x => (x.loc, x.scale))) :=
  ⟨rfl, rfl, rfl, gd_accumulate_updates_param gW gW1 0 pnW [2, 3] rfl rfl rfl⟩

/-- Claim C2: in discriminative mode, accumulate_updates hands every
Gaussian leaf an already-corrected signal — the actual signal is subtracted
from the positive signal before compute_gradient is called — and the
resulting location and scale deltas are each scaled by the learning rate
and added in place into the record's two accumulators. -/
theorem gd_accumulate_updates_leaf (g g' : GDLearning) (i : Nat)
    (gn : GaussianLeafNode) (pos act : Tensor)
    (hdisc : g.learning_type = LearningType.DISCRIMINATIVE)
    (h : g.accumulate_updates = .ok g')
    (hgn : g.gaussian_leaf_nodes.get? i = some gn)
    (hpos : lookupT g'.positive_grad_table gn.node.id = some pos)
    (hact : lookupT g'.negative_grad_table gn.node.id = some act) :
    g'.gaussian_leaf_nodes.get? i = some { gn with
      mean_grad := (tensorAdd gn.mean_grad (tensorScale g.learning_rate
        (gn.node.compute_gradient (tensorSub pos act)).1)),
      var_grad := (tensorAdd gn.var_grad (tensorScale g.learning_rate
        (gn.node.compute_gradient (tensorSub pos act)).2)) } := by
  obtain ⟨g1, hens, hops⟩ := accumulate_updates_ok h
  obtain ⟨hpn1, hgn1, hlt1, hlr1, hlit1, -, -, -⟩ := ensure_signals_ok hens
  obtain ⟨hmapP, hmapL, hmp', hgr', hlt', hlr', hlit'⟩ := accumulate_ops_ok hops
  obtain ⟨hposT, hnegT⟩ := grad_tables_congr hmp' hgr' hlit'
  rw [hgn1, hlt1, hlr1] at hmapL
  rw [hposT] at hpos
  rw [hnegT] at hact
  obtain ⟨gn', hstep, hget⟩ := mapE_get? hmapL i hgn
  rw [accumLeafNode] at hstep
  split at hstep
  · simp at hstep
  · rename_i c heq
    rw [heq] at hpos
    simp only [Option.some.injEq] at hpos
    subst hpos
    split at hstep
    · simp at hstep
    · rename_i inc hcs
      simp only [Except.ok.injEq] at hstep
      subst hstep
      rw [hdisc] at hcs
      simp only [correctedSignal] at hcs
      split at hcs
      · simp at hcs
      · rename_i t heq2
        rw [heq2] at hact
        simp only [Option.some.injEq] at hact
        subst hact
        simp only [Except.ok.injEq] at hcs
        subst hcs
        simpa using hget

/-- Witness for claim C2, at the concrete instance `gW`: the leaf
accumulators go from [7] and [9] to [7] + 2 * ([5] - [2]) and
[9] + 2 * (2 * ([5] - [2])). -/
theorem gd_accumulate_updates_leaf_w :
    gW.learning_type = LearningType.DISCRIMINATIVE ∧
    gW.accumulate_updates = .ok gW1 ∧
    gW.gaussian_leaf_nodes.get? 0 = some gnW ∧
    lookupT gW1.positive_grad_table gnW.node.id = some [5] ∧
    lookupT gW1.negative_grad_table gnW.node.id = some [2] ∧
    gW1.gaussian_leaf_nodes.get? 0 = some { gnW with
      mean_grad := (tensorAdd gnW.mean_grad (tensorScale gW.learning_rate
        (gnW.node.compute_gradient (tensorSub [5] [2])).1)),
      var_grad := (tensorAdd gnW.var_grad (tensorScale gW.learning_rate
        (gnW.node.compute_gradient (tensorSub [5] [2])).2)) } :=
  ⟨rfl, rfl, rfl, rfl, rfl,
    gd_accumulate_updates_leaf gW gW1 0 gnW [5] [2] rfl rfl rfl rfl rfl⟩

/-- Claim C3: when the learning type is not DISCRIMINATIVE (generative
mode), accumulate_updates never invokes the provider's actual-pass accessor
(the actual-pass call counter is unchanged), and every per-node update is
computed from the positive signal alone: each parametric node's
compute_hard_gd_update receives None as the actual signal, and each
Gaussian leaf's compute_gradient receives the raw positive signal with
nothing subtracted from it. -/
theorem gd_generative_no_actual_pass (g g' : GDLearning) (i j : Nat)
    (pn : ParamNode) (gn : GaussianLeafNode) (pos posL : Tensor)
    (hgen : g.learning_type ≠ LearningType.DISCRIMINATIVE)
    (h : g.accumulate_updates = .ok g')
    (hpn : g.param_nodes.get? i = some pn)
    (hpos : lookupT g'.positive_grad_table pn.node.id = some pos)
    (hgn : g.gaussian_leaf_nodes.get? j = some gn)
    (hposL : lookupT g'.positive_grad_table gn.node.id = some posL) :
    g'.actual_pass_calls = g.actual_pass_calls ∧
    g'.param_nodes.get? i = some { pn with accum := (tensorAdd pn.accum
      (tensorScale g.learning_rate (pn.node.compute_hard_gd_update pos none))) } ∧
    g'.gaussian_leaf_nodes.get? j = some { gn with
      mean_grad := (tensorAdd gn.mean_grad (tensorScale g.learning_rate
        (gn.node.compute_gradient posL).1)),
      var_grad := (tensorAdd gn.var_grad (tensorScale g.learning_rate
        (gn.node.compute_gradient posL).2)) } := by
  obtain ⟨g1, hens, hops⟩ := accumulate_updates_ok h
  obtain ⟨hpn1, hgn1, hlt1, hlr1, hlit1, -, -, -⟩ := ensure_signals_ok hens
  obtain ⟨hmapP, hmapL, hmp', hgr', hlt', hlr', hlit'⟩ := accumulate_ops_ok hops
  obtain ⟨hposT, hnegT⟩ := grad_tables_congr hmp' hgr' hlit'
  obtain ⟨-, hactc, -, -⟩ := ensure_signals_effects hens
  obtain ⟨-, hactc'⟩ := pass_calls_congr hmp' hgr'
  rw [hposT] at hpos hposL
  refine ⟨?_, ?_, ?_⟩
  · rw [hactc', hactc]
    simp [hgen]
  · rw [hpn1, hlt1, hlr1] at hmapP
    obtain ⟨pn', hstep, hget⟩ := mapE_get? hmapP i hpn
    rw [accumParamNode] at hstep
    split at hstep
    · simp at hstep
    · rename_i c heq
      rw [heq] at hpos
      simp only [Option.some.injEq] at hpos
      subst hpos
      split at hstep
      · simp at hstep
      · rename_i act hact
        simp only [Except.ok.injEq] at hstep
        subst hstep
        cases hllt : g.learning_type with
        | DISCRIMINATIVE => exact absurd hllt hgen
        | GENERATIVE =>
          rw [hllt] at hact
          simp only [fetchActual, Except.ok.injEq] at hact
          subst hact
          simpa using hget
  · rw [hgn1, hlt1, hlr1] at hmapL
    obtain ⟨gn', hstep, hget⟩ := mapE_get? hmapL j hgn
    rw [accumLeafNode] at hstep
    split at hstep
    · simp at hstep
    · rename_i c heq
      rw [heq] at hposL
      simp only [Option.some.injEq] at hposL
      subst hposL
      split at hstep
      · simp at hstep
      · rename_i inc hcs
        simp only [Except.ok.injEq] at hstep
        subst hstep
        cases hllt : g.learning_type with
        | DISCRIMINATIVE => exact absurd hllt hgen
        | GENERATIVE =>
          rw [hllt] at hcs
          simp only [correctedSignal, Except.ok.injEq] at hcs
          subst hcs
          simpa using hget

/-- Witness for claim C3, at the concrete generative instance `gGen`: the
actual-pass counter stays at its previous value, the weight update is
computed from the positive signal [2, 3] with None as the actual signal,
and the leaf update from the raw positive signal [5] with nothing
subtracted. -/
theorem gd_generative_no_actual_pass_w :
    gGen.learning_type ≠ LearningType.DISCRIMINATIVE ∧
    gGen.accumulate_updates = .ok gGen1 ∧
    gGen.param_nodes.get? 0 = some pnW ∧
    lookupT gGen1.positive_grad_table pnW.node.id = some [2, 3] ∧
    gGen.gaussian_leaf_nodes.get? 0 = some gnW ∧
    lookupT gGen1.positive_grad_table gnW.node.id = some [5] ∧
    (gGen1.actual_pass_calls = gGen.actual_pass_calls ∧
     gGen1.param_nodes.get? 0 = some { pnW with accum := (tensorAdd pnW.accum
       (tensorScale gGen.learning_rate
         (pnW.node.compute_hard_gd_update [2, 3] none))) } ∧
     gGen1.gaussian_leaf_nodes.get? 0 = some { gnW with
       mean_grad := (tensorAdd gnW.mean_grad (tensorScale gGen.learning_rate
         (gnW.node.compute_gradient [5]).1)),
       var_grad := (tensorAdd gnW.var_grad (tensorScale gGen.learning_rate
         (gnW.node.compute_gradient [5]).2)) }) :=
  ⟨by decide, rfl, rfl, rfl, rfl, rfl,
    gd_generative_no_actual_pass gGen gGen1 0 0 pnW gnW [2, 3] [5]
      (by decide) rfl rfl rfl rfl rfl⟩

/-- Claim C7: the signal tables are computed at most once — a call to
accumulate_updates triggers a provider pass only when the corresponding
table is still empty (the pass counters increase exactly then), a nonempty
table is preserved verbatim, and a second call made once the tables are
populated triggers no recomputation and observes the identical cached
tables. -/
theorem gd_signal_tables_cached (g g1 g2 : GDLearning)
    (h1 : g.accumulate_updates = .ok g1)
    (h2 : g1.accumulate_updates = .ok g2)
    (hne : ¬ g1.positive_grad_table.isEmpty)
    (hne2 : g1.learning_type = LearningType.DISCRIMINATIVE →
      ¬ g1.negative_grad_table.isEmpty) :
    g1.pos_pass_calls = g.pos_pass_calls +
      (if g.positive_grad_table.isEmpty then 1 else 0) ∧
    g1.actual_pass_calls = g.actual_pass_calls +
      (if g.learning_type = LearningType.DISCRIMINATIVE ∧ g.negative_grad_table.isEmpty
       then 1 else 0) ∧
    (¬ g.positive_grad_table.isEmpty →
      g1.positive_grad_table = g.positive_grad_table) ∧
    g2.positive_grad_table = g1.positive_grad_table ∧
    g2.negative_grad_table = g1.negative_grad_table ∧
    g2.pos_pass_calls = g1.pos_pass_calls ∧
    g2.actual_pass_calls = g1.actual_pass_calls := by
  obtain ⟨ga, hensa, hopsa⟩ := accumulate_updates_ok h1
  obtain ⟨e1a, e2a, e3a, e4a⟩ := ensure_signals_effects hensa
  obtain ⟨-, -, hmpa, hgra, -, -, hlita⟩ := accumulate_ops_ok hopsa
  obtain ⟨hposTa, hnegTa⟩ := grad_tables_congr hmpa hgra hlita
  obtain ⟨hpca, haca⟩ := pass_calls_congr hmpa hgra
  obtain ⟨gb, hensb, hopsb⟩ := accumulate_updates_ok h2
  obtain ⟨e1b, e2b, e3b, e4b⟩ := ensure_signals_effects hensb
  obtain ⟨-, -, hmpb, hgrb, -, -, hlitb⟩ := accumulate_ops_ok hopsb
  obtain ⟨hposTb, hnegTb⟩ := grad_tables_congr hmpb hgrb hlitb
  obtain ⟨hpcb, hacb⟩ := pass_calls_congr hmpb hgrb
  refine ⟨?_, ?_, ?_, ?_, ?_, ?_, ?_⟩
  · rw [hpca, e1a]
  · rw [haca, e2a]
  · intro hq
    rw [hposTa]
    exact e3a hq
  · rw [hposTb, e1b] at *
    rw [hposTb]
    exact e3b hne
  · rw [hnegTb]
    exact e4b (fun hh => hne2 hh.1 hh.2)
  · rw [hpcb, e1b]
    simp [hne]
  · rw [hacb, e2b]
    have hq : ¬ (g1.learning_type = LearningType.DISCRIMINATIVE ∧
        g1.negative_grad_table.isEmpty) := fun hh => hne2 hh.1 hh.2
    rw [if_neg hq]
    exact Nat.add_zero _

/-- Witness for claim C7, at the fresh discriminative instance `gF` (empty
tables, zero counters): the first call runs each pass exactly once, the
second call leaves tables and counters untouched. -/
theorem gd_signal_tables_cached_w :
    gF.accumulate_updates = .ok gF1 ∧
    gF1.accumulate_updates = .ok gF2 ∧
    (¬ gF1.positive_grad_table.isEmpty) ∧
    (gF1.learning_type = LearningType.DISCRIMINATIVE →
      ¬ gF1.negative_grad_table.isEmpty) ∧
    (gF1.pos_pass_calls = gF.pos_pass_calls +
      (if gF.positive_grad_table.isEmpty then 1 else 0) ∧
     gF1.actual_pass_calls = gF.actual_pass_calls +
      (if gF.learning_type = LearningType.DISCRIMINATIVE ∧
          gF.negative_grad_table.isEmpty then 1 else 0) ∧
     (¬ gF.positive_grad_table.isEmpty →
       gF1.positive_grad_table = gF.positive_grad_table) ∧
     gF2.positive_grad_table = gF1.positive_grad_table ∧
     gF2.negative_grad_table = gF1.negative_grad_table ∧
     gF2.pos_pass_calls = gF1.pos_pass_calls ∧
     gF2.actual_pass_calls = gF1.actual_pass_calls) :=
  ⟨rfl, rfl, by decide, by decide,
    gd_signal_tables_cached gF gF1 gF2 rfl rfl (by decide) (by decide)⟩

/-- The HARD and non-HARD branches of the commit step coincide: the result
dispatches only on the node's log flag. -/
theorem commitParam_eq (l : LearningInferenceType) (q : ParamNode) :
    commitParam l q = { q with weight :=
      (if q.node.log then q.node.update_log q.weight q.accum
       else q.node.update q.weight q.accum) } := by
  cases l <;> by_cases hlog : q.node.log <;> simp [commitParam, hlog]

/-- Claim C8: reset_accumulators sets every weight accumulator and both
leaf accumulators to the zero tensor shaped like the corresponding
parameter, in one grouped operation, and changes nothing else — in
particular every live model parameter (the record's weight, loc and scale
fields) and the providers are left unchanged. -/
theorem gd_reset_accumulators_spec (g : GDLearning) (i j : Nat)
    (pn : ParamNode) (gn : GaussianLeafNode)
    (hpn : g.param_nodes.get? i = some pn)
    (hgn : g.gaussian_leaf_nodes.get? j = some gn) :
    g.reset_accumulators.param_nodes.get? i =
      some { pn with accum := zeros_like pn.weight } ∧
    g.reset_accumulators.gaussian_leaf_nodes.get? j =
      some { gn with mean_grad := zeros_like gn.loc, var_grad := zeros_like gn.scale } ∧
    g.reset_accumulators.mpe_path = g.mpe_path ∧
    g.reset_accumulators.gradient = g.gradient ∧
    g.reset_accumulators.learning_rate = g.learning_rate := by
  refine ⟨?_, ?_, rfl, rfl, rfl⟩
  · show (g.param_nodes.map (fun pn =>
        ({ pn with accum := zeros_like pn.weight } : ParamNode))).get? i = _
    rw [List.get?_map, hpn]
    rfl
  · show (g.gaussian_leaf_nodes.map (fun gn =>
        ({ gn with mean_grad := zeros_like gn.loc,
                   var_grad := zeros_like gn.scale } : GaussianLeafNode))).get? j = _
    rw [List.get?_map, hgn]
    rfl

/-- Witness for claim C8, at the concrete instance `gW`. -/
theorem gd_reset_accumulators_w :
    gW.param_nodes.get? 0 = some pnW ∧
    gW.gaussian_leaf_nodes.get? 0 = some gnW ∧
    (gW.reset_accumulators.param_nodes.get? 0 =
      some { pnW with accum := zeros_like pnW.weight } ∧
     gW.reset_accumulators.gaussian_leaf_nodes.get? 0 =
      some { gnW with mean_grad := zeros_like gnW.loc,
                      var_grad := zeros_like gnW.scale } ∧
     gW.reset_accumulators.mpe_path = gW.mpe_path ∧
     gW.reset_accumulators.gradient = gW.gradient ∧
     gW.reset_accumulators.learning_rate = gW.learning_rate) :=
  ⟨rfl, rfl, gd_reset_accumulators_spec gW 0 0 pnW gnW rfl rfl⟩

/-- Claim C5: update_spn commits each weight accumulator into the node's
live parameter via update_log when the node stores its parameter in log
space and via update otherwise, commits both leaf accumulators via the
leaf's assign_add, and resets no accumulator — so two consecutive
update_spn calls apply the accumulated delta twice. -/
theorem gd_update_spn_commit (g : GDLearning) (i j : Nat)
    (pn : ParamNode) (gn : GaussianLeafNode)
    (hpn : g.param_nodes.get? i = some pn)
    (hgn : g.gaussian_leaf_nodes.get? j = some gn) :
    g.update_spn.param_nodes.get? i = some { pn with weight :=
      (if pn.node.log then pn.node.update_log pn.weight pn.accum
       else pn.node.update pn.weight pn.accum) } ∧
    g.update_spn.gaussian_leaf_nodes.get? j = some { gn with
      loc := (gn.node.assign_add (gn.loc, gn.scale) gn.mean_grad gn.var_grad).1,
      scale := (gn.node.assign_add (gn.loc, gn.scale) gn.mean_grad gn.var_grad).2 } ∧
    g.update_spn.update_spn.param_nodes.get? i = some { pn with weight :=
      (if pn.node.log then
         pn.node.update_log (pn.node.update_log pn.weight pn.accum) pn.accum
       else pn.node.update (pn.node.update pn.weight pn.accum) pn.accum) } := by
  have key : ∀ (g' : GDLearning) (k : Nat) (q : ParamNode),
      g'.param_nodes.get? k = some q →
      g'.update_spn.param_nodes.get? k = some { q with weight :=
        (if q.node.log then q.node.update_log q.weight q.accum
         else q.node.update q.weight q.accum) } := by
    intro g' k q hq
    show (g'.param_nodes.map (commitParam g'.learning_inference_type)).get? k = _
    rw [List.get?_map, hq]
    exact congrArg some (commitParam_eq _ q)
  have h1 := key g i pn hpn
  have h2 := key g.update_spn i _ h1
  have h2' : g.update_spn.update_spn.param_nodes.get? i =
      some { pn with weight :=
        (if pn.node.log then
           pn.node.update_log
             (if pn.node.log then pn.node.update_log pn.weight pn.accum
              else pn.node.update pn.weight pn.accum) pn.accum
         else
           pn.node.update
             (if pn.node.log then pn.node.update_log pn.weight pn.accum
              else pn.node.update pn.weight pn.accum) pn.accum) } := h2
  refine ⟨h1, ?_, ?_⟩
  · show (g.gaussian_leaf_nodes.map commitLeaf).get? j = _
    rw [List.get?_map, hgn]
    rfl
  · by_cases hlog : pn.node.log
    · simp only [if_pos hlog] at h2' ⊢
      exact h2'
    · simp only [if_neg hlog] at h2' ⊢
      exact h2'

/-- Witness for claim C5, at the concrete instance `gW`. -/
theorem gd_update_spn_commit_w :
    gW.param_nodes.get? 0 = some pnW ∧
    gW.gaussian_leaf_nodes.get? 0 = some gnW ∧
    (gW.update_spn.param_nodes.get? 0 = some { pnW with weight :=
      (if pnW.node.log then pnW.node.update_log pnW.weight pnW.accum
       else pnW.node.update pnW.weight pnW.accum) } ∧
     gW.update_spn.gaussian_leaf_nodes.get? 0 = some { gnW with
      loc := (gnW.node.assign_add (gnW.loc, gnW.scale) gnW.mean_grad gnW.var_grad).1,
      scale := (gnW.node.assign_add (gnW.loc, gnW.scale) gnW.mean_grad gnW.var_grad).2 } ∧
     gW.update_spn.update_spn.param_nodes.get? 0 = some { pnW with weight :=
      (if pnW.node.log then
         pnW.node.update_log (pnW.node.update_log pnW.weight pnW.accum) pnW.accum
       else pnW.node.update (pnW.node.update pnW.weight pnW.accum) pnW.accum) }) :=
  ⟨rfl, rfl, gd_update_spn_commit gW 0 0 pnW gnW rfl rfl⟩

/-- Claim C9: update_spn produces the same commit operations regardless of
the configured learning inference type — the HARD branch and the non-HARD
branch of the source are extensionally equal, both dispatching solely on
each node's log flag. -/
theorem gd_update_spn_inference_type_irrelevant (g : GDLearning)
    (l : LearningInferenceType) :
    ({ g with learning_inference_type := l } : GDLearning).update_spn =
      { g.update_spn with learning_inference_type := l } := by
  have hfun : commitParam l = commitParam g.learning_inference_type := by
    funext q
    rw [commitParam_eq, commitParam_eq]
  rw [GDLearning.update_spn, GDLearning.update_spn]
  dsimp only
  rw [hfun]

/-- A successful construction stores the learning configuration and builds
the registry by traversing the graph. -/
theorem init_ok {root : Nat} {graph : Graph} {mpe grad : Option SignalProvider}
    {lr : ℚ} {log : Bool} {lt : LearningType} {lit : LearningInferenceType}
    {posR actR : List (Nat × Tensor)} {st : GDLearning}
    (h : GDLearning.init root graph mpe grad lr log lt lit posR actR = .ok st) :
    st.param_nodes = create_accumulators_params graph root ∧
    st.gaussian_leaf_nodes = create_accumulators_leaves graph root ∧
    st.learning_rate = lr ∧ st.learning_type = lt ∧
    st.learning_inference_type = lit := by
  rw [GDLearning.init] at h
  split at h
  · simp at h
  · simp only [Except.ok.injEq] at h
    subst h
    exact ⟨rfl, rfl, rfl, rfl, rfl⟩

/-- Claim C6: constructing GDLearning with a non-positive learning rate
fails with the invalid-configuration error (never silently clamped), and
any positive learning rate is accepted and stored. -/
theorem gd_init_learning_rate_validation (root : Nat) (graph : Graph)
    (mpe grad : Option SignalProvider) (lr : ℚ) (log : Bool)
    (lt : LearningType) (lit : LearningInferenceType)
    (posR actR : List (Nat × Tensor)) :
    (lr ≤ 0 → GDLearning.init root graph mpe grad lr log lt lit posR actR =
      .error "learning_rate must be a positive number") ∧
    (0 < lr → (GDLearning.init root graph mpe grad lr log lt lit posR actR).map
      GDLearning.learning_rate = .ok lr) := by
  constructor
  · intro hle
    rw [GDLearning.init, if_pos hle]
  · intro hpos
    rw [GDLearning.init, if_neg (not_le.mpr hpos)]
    cases lit <;> cases mpe <;> cases grad <;> rfl

/-- Witness for claim C6: learning rate -1 is rejected with the exact
error message, learning rate 1 is accepted and stored. -/
theorem gd_init_learning_rate_validation_w :
    ((-1 : ℚ) ≤ 0 ∧
      GDLearning.init 0 graphW none none (-1) true LearningType.DISCRIMINATIVE
        LearningInferenceType.HARD [] [] =
        .error "learning_rate must be a positive number") ∧
    ((0 : ℚ) < 1 ∧
      (GDLearning.init 0 graphW none none 1 true LearningType.DISCRIMINATIVE
        LearningInferenceType.HARD [] []).map GDLearning.learning_rate = .ok 1) :=
  ⟨⟨by norm_num,
    (gd_init_learning_rate_validation 0 graphW none none (-1) true
      LearningType.DISCRIMINATIVE LearningInferenceType.HARD [] []).1 (by norm_num)⟩,
   ⟨by norm_num,
    (gd_init_learning_rate_validation 0 graphW none none 1 true
      LearningType.DISCRIMINATIVE LearningInferenceType.HARD [] []).2 (by norm_num)⟩⟩

/-- Claim C10: when the caller supplies an external provider (an mpe_path
in HARD mode, a gradient otherwise), the instance's log mode is set to that
provider's own log flag and the constructor's log argument is ignored; the
log argument takes effect only when the provider is created internally. -/
theorem gd_init_external_provider_log (root : Nat) (graph : Graph)
    (mpe grad : Option SignalProvider) (p : SignalProvider) (lr : ℚ) (log : Bool)
    (lt : LearningType) (lit : LearningInferenceType)
    (posR actR : List (Nat × Tensor)) (hlr : 0 < lr) :
    (GDLearning.init root graph (some p) grad lr log lt LearningInferenceType.HARD
      posR actR).map GDLearning.log = .ok p.log ∧
    (lit ≠ LearningInferenceType.HARD →
      (GDLearning.init root graph mpe (some p) lr log lt lit posR actR).map
        GDLearning.log = .ok p.log) ∧
    (GDLearning.init root graph none grad lr log lt LearningInferenceType.HARD
      posR actR).map GDLearning.log = .ok log ∧
    (lit ≠ LearningInferenceType.HARD →
      (GDLearning.init root graph mpe none lr log lt lit posR actR).map
        GDLearning.log = .ok log) := by
  have hn := not_le.mpr hlr
  refine ⟨?_, ?_, ?_, ?_⟩
  · rw [GDLearning.init, if_neg hn]
    rfl
  · intro hne
    cases lit with
    | HARD => exact absurd rfl hne
    | SOFT =>
      rw [GDLearning.init, if_neg hn]
      rfl
  · rw [GDLearning.init, if_neg hn]
    rfl
  · intro hne
    cases lit with
    | HARD => exact absurd rfl hne
    | SOFT =>
      rw [GDLearning.init, if_neg hn]
      rfl

/-- An external provider whose log flag disagrees with the constructor's
log argument, used to witness that the argument is ignored. -/
def provG : SignalProvider := { provW with log := false }

/-- Witness for claim C10: constructing with log argument true and external
provider `provG` (log flag false) yields log mode false; constructing with
no external provider yields log mode true. -/
theorem gd_init_external_provider_log_w :
    (0 : ℚ) < 1 ∧
    ((GDLearning.init 0 graphW (some provG) none 1 true LearningType.GENERATIVE
       LearningInferenceType.HARD [] []).map GDLearning.log = .ok provG.log ∧
     (LearningInferenceType.SOFT ≠ LearningInferenceType.HARD →
       (GDLearning.init 0 graphW none (some provG) 1 true LearningType.GENERATIVE
         LearningInferenceType.SOFT [] []).map GDLearning.log = .ok provG.log) ∧
     (GDLearning.init 0 graphW none none 1 true LearningType.GENERATIVE
       LearningInferenceType.HARD [] []).map GDLearning.log = .ok true ∧
     (LearningInferenceType.SOFT ≠ LearningInferenceType.HARD →
       (GDLearning.init 0 graphW none none 1 true LearningType.GENERATIVE
         LearningInferenceType.SOFT [] []).map GDLearning.log = .ok true)) :=
  ⟨by norm_num,
   gd_init_external_provider_log 0 graphW none none provG 1 true
     LearningType.GENERATIVE LearningInferenceType.SOFT [] [] (by norm_num)⟩

/-- Mapping a projection over a conditionally-built filterMap equals
mapping the underlying function over the filter. -/
theorem filterMap_if_map {α β γ : Type} (l : List α) (p : α → Bool) (mk : α → β)
    (pr : β → γ) (q : α → γ) (hk : ∀ a, pr (mk a) = q a) :
    (l.filterMap (fun a => if p a then some (mk a) else none)).map pr =
      (l.filter p).map q := by
  induction l with
  | nil => rfl
  | cons a as ih =>
    by_cases hp : p a <;>
      simp [List.filterMap_cons, List.filter_cons, hp, ih, hk a]

/-- Claim C4: after construction over any DAG (including DAGs with shared
substructure), the registry holds exactly one record per parametric node
reachable from the root — N distinct parametric nodes yield N records, with
no duplicate ids — each weight accumulator is the zero tensor shaped like
the node's parameter, and every Gaussian leaf with trainable distribution
parameters gets exactly two zero accumulators shaped like its location and
scale parameters. -/
theorem gd_create_accumulators_registry (root : Nat) (graph : Graph)
    (mpe grad : Option SignalProvider) (lr : ℚ) (log : Bool)
    (lt : LearningType) (lit : LearningInferenceType)
    (posR actR : List (Nat × Tensor)) (st : GDLearning)
    (hnd : (graph.nodes.map Node.id).Nodup)
    (h : GDLearning.init root graph mpe grad lr log lt lit posR actR = .ok st) :
    st.param_nodes.map ParamNode.node =
      (traverse_graph graph root).filter (fun n => n.is_param) ∧
    (st.param_nodes.map (fun pn => pn.node.id)).Nodup ∧
    st.param_nodes.map ParamNode.accum =
      st.param_nodes.map (fun pn => zeros_like pn.node.weight_var) ∧
    st.param_nodes.map (fun pn => pn.accum.length) =
      st.param_nodes.map (fun pn => pn.node.weight_var.length) ∧
    st.gaussian_leaf_nodes.map GaussianLeafNode.node =
      (traverse_graph graph root).filter
        (fun n => n.isGaussianLeaf && n.learn_distribution_parameters) ∧
    st.gaussian_leaf_nodes.map (fun gn => (gn.mean_grad, gn.var_grad)) =
      st.gaussian_leaf_nodes.map (fun gn =>
        (zeros_like gn.node.loc_variable, zeros_like gn.node.scale_variable)) := by
  obtain ⟨hpn, hgn, -, -, -⟩ := init_ok h
  refine ⟨?_, ?_, ?_, ?_, ?_, ?_⟩
  · rw [hpn]
    exact (filterMap_if_map (traverse_graph graph root) (fun n => n.is_param)
      mkParamRecord ParamNode.node id (fun a => rfl)).trans (List.map_id _)
  · rw [hpn]
    have e : (create_accumulators_params graph root).map (fun pn => pn.node.id) =
        ((traverse_graph graph root).filter (fun n => n.is_param)).map Node.id :=
      filterMap_if_map (traverse_graph graph root) (fun n => n.is_param)
        mkParamRecord (fun pn => pn.node.id) Node.id (fun a => rfl)
    rw [e]
    refine List.Nodup.sublist ?_ hnd
    exact ((List.filter_sublist _).trans (List.filter_sublist _)).map Node.id
  · rw [hpn]
    exact (filterMap_if_map (traverse_graph graph root) (fun n => n.is_param)
      mkParamRecord ParamNode.accum (fun n => zeros_like n.weight_var)
      (fun a => rfl)).trans
      (filterMap_if_map (traverse_graph graph root) (fun n => n.is_param)
        mkParamRecord (fun pn => zeros_like pn.node.weight_var)
        (fun n => zeros_like n.weight_var) (fun a => rfl)).symm
  · rw [hpn]
    exact (filterMap_if_map (traverse_graph graph root) (fun n => n.is_param)
      mkParamRecord (fun pn => pn.accum.length)
      (fun n => (zeros_like n.weight_var).length) (fun a => rfl)).trans
      (filterMap_if_map (traverse_graph graph root) (fun n => n.is_param)
        mkParamRecord (fun pn => pn.node.weight_var.length)
        (fun n => (zeros_like n.weight_var).length)
        (fun a => by simp [mkParamRecord, zeros_like])).symm
  · rw [hgn]
    exact (filterMap_if_map (traverse_graph graph root)
      (fun n => n.isGaussianLeaf && n.learn_distribution_parameters)
      mkLeafRecord GaussianLeafNode.node id (fun a => rfl)).trans (List.map_id _)
  · rw [hgn]
    exact (filterMap_if_map (traverse_graph graph root)
      (fun n => n.isGaussianLeaf && n.learn_distribution_parameters)
      mkLeafRecord (fun gn => (gn.mean_grad, gn.var_grad))
      (fun n => (zeros_like n.loc_variable, zeros_like n.scale_variable))
      (fun a => rfl)).trans
      (filterMap_if_map (traverse_graph graph root)
        (fun n => n.isGaussianLeaf && n.learn_distribution_parameters)
        mkLeafRecord
        (fun gn => (zeros_like gn.node.loc_variable, zeros_like gn.node.scale_variable))
        (fun n => (zeros_like n.loc_variable, zeros_like n.scale_variable))
        (fun a => rfl)).symm

/-- Witness for claim C4, at the witness graph with one parametric node and
one trainable Gaussian leaf below a plain root. -/
theorem gd_create_accumulators_registry_w :
    (graphW.nodes.map Node.id).Nodup ∧
    GDLearning.init 0 graphW none none 1 true LearningType.DISCRIMINATIVE
      LearningInferenceType.HARD [] [] = .ok stW ∧
    (stW.param_nodes.map ParamNode.node =
       (traverse_graph graphW 0).filter (fun n => n.is_param) ∧
     (stW.param_nodes.map (fun pn => pn.node.id)).Nodup ∧
     stW.param_nodes.map ParamNode.accum =
       stW.param_nodes.map (fun pn => zeros_like pn.node.weight_var) ∧
     stW.param_nodes.map (fun pn => pn.accum.length) =
       stW.param_nodes.map (fun pn => pn.node.weight_var.length) ∧
     stW.gaussian_leaf_nodes.map GaussianLeafNode.node =
       (traverse_graph graphW 0).filter
         (fun n => n.isGaussianLeaf && n.learn_distribution_parameters) ∧
     stW.gaussian_leaf_nodes.map (fun gn => (gn.mean_grad, gn.var_grad)) =
       stW.gaussian_leaf_nodes.map (fun gn =>
         (zeros_like gn.node.loc_variable, zeros_like gn.node.scale_variable))) :=
  ⟨by decide, rfl,
   gd_create_accumulators_registry 0 graphW none none 1 true
     LearningType.DISCRIMINATIVE LearningInferenceType.HARD [] [] stW
     (by decide) rfl⟩
